import Mathlib

/-!
# Verification of the Mainflux consumer-to-sink dispatch engine

A shallow embedding of the Mainflux message-consumption pipeline:
the influxdb writer's `Consume` (SenML and JSON variants, exercised by
the tests in `consumers/writers/influxdb`), the SMPP notification
dispatcher, and the startup / configuration code of
`cmd/smpp-notifier/main.go`.

The writer's `Consume`, the JSON transformer's key validation and the
notifiers service are not part of the sampled sources (only their tests
and callers are), so those operations are modelled from the
specification, as marked on each definition.  `cmd/smpp-notifier/main.go`
is embedded directly from the source.
-/

namespace Mainflux

/-! ## Data model: records, payload variants, batches -/

/-- The payload variant discriminant of a SenML record: exactly one of a
numeric value, boolean, string, opaque/binary data, or running sum. -/
inductive VariantTag where
  | value
  | boolV
  | stringV
  | dataV
  | sumV
deriving DecidableEq

/-- Modelled from the spec: the mutually exclusive payload variant of a
Record — "exactly one payload variant among {numeric value, boolean,
string, opaque/binary, running sum}", represented as a tagged union with
an explicit discriminant (spec §3, §9).  Numeric values are modelled as
rationals. -/
inductive Payload where
  | value (v : ℚ)
  | boolV (b : Bool)
  | stringV (s : String)
  | dataV (d : String)
  | sumV (s : ℚ)
deriving DecidableEq

/-- The discriminant of a payload. -/
def Payload.tag : Payload → VariantTag
  | .value _ => .value
  | .boolV _ => .boolV
  | .stringV _ => .stringV
  | .dataV _ => .dataV
  | .sumV _ => .sumV

/-- A SenML record as consumed by the writer and the notifier: topic
context (channel, optional subtopic), publisher, protocol, name, unit,
timestamp, and one payload variant (spec §3). -/
structure SenmlMessage where
  channel : String
  subtopic : String
  publisher : String
  protocol : String
  name : String
  unit : String
  time : ℚ
  payload : Payload
deriving DecidableEq

/-- The topic path of a record: the channel, extended with the trailing
subtopic when one is present (spec §3: "topic path (hierarchical,
slash-separated, optionally with a trailing free-form subtopic)"). -/
def topicOf (m : SenmlMessage) : String :=
  if m.subtopic = "" then m.channel else m.channel ++ "/" ++ m.subtopic

/-! ## Notification dispatcher -/

/-- A notifier subscription: a topic filter and a destination contact,
owned by an authenticated principal (spec §3). -/
structure Subscription where
  ownerID : String
  contact : String
  topic : String
deriving DecidableEq

/-- Modelled from the spec: the Subscription Store's topic-matching rule —
"exact topic or hierarchical prefix match" (spec §3, §4.2 step 1). -/
def topicMatches (filter topic : String) : Bool :=
  filter == topic || (filter ++ "/").isPrefixOf topic

/-- The subscriptions of the store whose topic filter matches the
record's topic (spec §4.2 step 1). -/
def matchingSubs (subs : List Subscription) (topic : String) : List Subscription :=
  subs.filter fun s => topicMatches s.topic topic

/-- Render a number for a notification body: integral rationals print as
plain integers (so 42.0 renders as "42"). -/
def renderNum (q : ℚ) : String :=
  if q.den = 1 then toString q.num else toString q.num ++ "/" ++ toString q.den

/-- Modelled from the spec: render the populated payload variant as
human-readable text (spec §4.2 step 2). -/
def renderPayload : Payload → String
  | .value v => renderNum v
  | .boolV b => toString b
  | .stringV s => s
  | .dataV _ => "<binary>"
  | .sumV s => renderNum s

/-- Modelled from the spec: the notification body, built from the
record's populated payload variant plus topic/unit context
(spec §4.2 step 2). -/
def renderBody (m : SenmlMessage) : String :=
  topicOf m ++ ": " ++ renderPayload m.payload ++ " " ++ m.unit

/-- One attempted delivery: destination contact, message body, and
whether the Notification Channel's Send succeeded (the per-(Record,
Subscription) Delivery Outcome of spec §3). -/
structure Attempt where
  contact : String
  body : String
  sent : Bool
deriving DecidableEq

/-- Modelled from the spec: the Notification Dispatcher's
`Notify(record) -> error` (spec §4.2).  The Notification Channel is an
oracle `send : contact → body → Bool` (true = delivered).  The
dispatcher resolves all matching subscriptions, renders one body, sends
to every matching subscription regardless of other failures, and
reports an aggregate error exactly when at least one send failed
(failure isolation per subscription). -/
def notify (send : String → String → Bool) (subs : List Subscription)
    (m : SenmlMessage) : List Attempt × Bool :=
  let body := renderBody m
  let attempts := (matchingSubs subs (topicOf m)).map
    fun s => { contact := s.contact, body := body, sent := send s.contact body : Attempt }
  (attempts, attempts.any fun a => !a.sent)

/-- The number of failed sends among a dispatch's attempts. -/
def failedCount (attempts : List Attempt) : ℕ :=
  attempts.countP fun a => !a.sent

lemma any_iff_one_le_failedCount (l : List Attempt) :
    (l.any fun a => !a.sent) = true ↔ 1 ≤ failedCount l := by
  have h1 : (l.any fun a => !a.sent) = true ↔ ∃ a ∈ l, (!a.sent) = true :=
    List.any_eq_true
  have h2 : 0 < l.countP (fun a => !a.sent) ↔ ∃ a ∈ l, (!a.sent) = true :=
    List.countP_pos_iff
  rw [failedCount]
  exact ⟨fun h => h2.mpr (h1.mp h), fun h => h1.mpr (h2.mp h)⟩

/-! ## Dispatcher theorems (claims C3, C4, C5) -/

/-- C3: For every Record whose topic matches exactly N active
subscriptions, Notify invokes Send exactly N times, once per matching
subscription; every matching subscription's send is attempted with its
own outcome recorded regardless of the other attempts' failures, and the
aggregate result is an error if and only if at least one send failed. -/
theorem notify_failure_isolation (send : String → String → Bool)
    (subs : List Subscription) (m : SenmlMessage) :
    (notify send subs m).1.length = (matchingSubs subs (topicOf m)).length
    ∧ (∀ s ∈ matchingSubs subs (topicOf m),
        ({ contact := s.contact, body := renderBody m,
           sent := send s.contact (renderBody m) : Attempt }) ∈ (notify send subs m).1)
    ∧ ((notify send subs m).2 = true ↔ 1 ≤ failedCount (notify send subs m).1) := by
  refine ⟨?_, ?_, ?_⟩
  · simp [notify]
  · intro s hs
    simp only [notify]
    exact List.mem_map.mpr ⟨s, hs, rfl⟩
  · simp only [notify]
    exact any_iff_one_le_failedCount _

/-- C4: a Record whose topic matches zero active subscriptions yields
zero Send invocations and no error. -/
theorem notify_zero_matches (send : String → String → Bool)
    (subs : List Subscription) (m : SenmlMessage)
    (h : matchingSubs subs (topicOf m) = []) :
    notify send subs m = ([], false) := by
  simp [notify, h]

/-- C4 witness: a store with one non-matching subscription yields zero
sends and no error. -/
theorem notify_zero_matches_witness :
    notify (fun _ _ => true)
      [{ ownerID := "owner", contact := "15550000", topic := "alerts/temp" }]
      { channel := "other", subtopic := "", publisher := "p", protocol := "http",
        name := "n", unit := "", time := 0, payload := .boolV true } = ([], false) :=
  notify_zero_matches _ _ _ (by decide)

/-- A string contains a substring. -/
def containsSub (s sub : String) : Prop :=
  ∃ pre post, s = pre ++ sub ++ post

/-- C5: with exactly one subscription, contact "15550000" and topic
filter "alerts/temp", a record on topic "alerts/temp" carrying numeric
value 42.0 yields exactly one Send, to destination "15550000", whose
body contains the rendered value "42", and no error. -/
theorem notify_single_subscription_scenario :
    (notify (fun _ _ => true)
        [{ ownerID := "owner", contact := "15550000", topic := "alerts/temp" }]
        { channel := "alerts/temp", subtopic := "", publisher := "p",
          protocol := "http", name := "n", unit := "C", time := 0,
          payload := .value 42 }).1.length = 1
    ∧ (notify (fun _ _ => true)
        [{ ownerID := "owner", contact := "15550000", topic := "alerts/temp" }]
        { channel := "alerts/temp", subtopic := "", publisher := "p",
          protocol := "http", name := "n", unit := "C", time := 0,
          payload := .value 42 }).1 =
      [{ contact := "15550000", body := "alerts/temp: 42 C", sent := true }]
    ∧ containsSub "alerts/temp: 42 C" "42"
    ∧ (notify (fun _ _ => true)
        [{ ownerID := "owner", contact := "15550000", topic := "alerts/temp" }]
        { channel := "alerts/temp", subtopic := "", publisher := "p",
          protocol := "http", name := "n", unit := "C", time := 0,
          payload := .value 42 }).2 = false :=
  ⟨rfl, rfl, ⟨"alerts/temp: ", " C", rfl⟩, rfl⟩

/-! ## Consumer pipeline: JSON payloads and validation -/

/-- A JSON payload value: scalar or nested object (the shape the JSON
transformer's messages carry in their `Payload` map). -/
inductive JsonVal where
  | num (v : ℚ)
  | str (s : String)
  | boolean (b : Bool)
  | obj (fields : List (String × JsonVal))

/-- Modelled from the spec: the field names that are reserved and may
not appear as payload keys (the claim's "reserved field name (such as
'publisher')"). -/
def reservedKeys : List String := ["publisher"]

/-- Modelled from the spec: a single payload key is valid when it holds
no field-name separator '/' and is not a reserved field name. -/
def validKey (k : String) : Bool :=
  !(k.toList.contains '/') && !(reservedKeys.contains k)

mutual

/-- Modelled from the spec: every field name of a JSON payload value,
at every nesting level, is a valid key. -/
def JsonVal.validKeys : JsonVal → Bool
  | .num _ => true
  | .str _ => true
  | .boolean _ => true
  | .obj fs => validFields fs

/-- All keys of a field list are valid, recursively. -/
def validFields : List (String × JsonVal) → Bool
  | [] => true
  | (k, v) :: rest => validKey k && v.validKeys && validFields rest

end

/-- A JSON message as consumed by the writer: channel, subtopic,
publisher, protocol, creation timestamp and a JSON payload. -/
structure JsonMessage where
  channel : String
  subtopic : String
  publisher : String
  protocol : String
  created : Int
  payload : List (String × JsonVal)

/-- A JSON message is valid when every payload key, at every nesting
level, is free of the separator and not reserved. -/
def validJsonMessage (m : JsonMessage) : Bool :=
  validFields m.payload

/-- The error class of a rejected batch: the transformer-level
`invalid-key` ValidationError of spec §4.1/§7. -/
inductive ConsumeError where
  | invalidKey
deriving DecidableEq

/-- Modelled from the spec: the writer's `Consume` for a JSON batch.
The result is the new sink state paired with the returned error: when
any record holds a forbidden key the batch is rejected atomically with
the `invalid-key` ValidationError and the sink is left unchanged;
otherwise every record is stored as one row, in batch order
(spec §4.1, §8). -/
def consumeJson (sink : List JsonMessage) (batch : List JsonMessage) :
    List JsonMessage × Option ConsumeError :=
  if batch.all validJsonMessage then (sink ++ batch, none)
  else (sink, some .invalidKey)

/-! ## Consumer pipeline: SenML records and the storage sink -/

/-- A stored row of the time-series sink for a SenML record: one column
per payload variant, only the populated variant set (the influx point's
field set). -/
structure SenmlRow where
  channel : String
  subtopic : String
  publisher : String
  protocol : String
  name : String
  unit : String
  time : ℚ
  value : Option ℚ
  boolValue : Option Bool
  stringValue : Option String
  dataValue : Option String
  sumValue : Option ℚ
deriving DecidableEq

/-- Modelled from the spec: the row stored for a SenML record — exactly
the record's populated payload variant is set, the other variant fields
stay absent (spec §3: "consumers must treat unset variants as absent"). -/
def senmlRow (m : SenmlMessage) : SenmlRow :=
  { channel := m.channel, subtopic := m.subtopic, publisher := m.publisher,
    protocol := m.protocol, name := m.name, unit := m.unit, time := m.time,
    value := match m.payload with | .value v => some v | _ => none,
    boolValue := match m.payload with | .boolV b => some b | _ => none,
    stringValue := match m.payload with | .stringV s => some s | _ => none,
    dataValue := match m.payload with | .dataV d => some d | _ => none,
    sumValue := match m.payload with | .sumV s => some s | _ => none }

/-- Modelled from the spec: the writer's `Consume` for a SenML batch —
append-only write of one row per record, in batch order, to the
duplicate-tolerant sink (spec §4.1, §6). -/
def consumeSenml (sink : List SenmlRow) (batch : List SenmlMessage) : List SenmlRow :=
  sink ++ batch.map senmlRow

/-- The number of populated payload-variant fields of a stored row. -/
def populatedCount (r : SenmlRow) : ℕ :=
  [r.value.isSome, r.boolValue.isSome, r.stringValue.isSome,
   r.dataValue.isSome, r.sumValue.isSome].count true

/-- The payload-variant field populated in a stored row, if exactly the
expected one is set. -/
def populatedTag (r : SenmlRow) : Option VariantTag :=
  match r.value, r.boolValue, r.stringValue, r.dataValue, r.sumValue with
  | some _, none, none, none, none => some .value
  | none, some _, none, none, none => some .boolV
  | none, none, some _, none, none => some .stringV
  | none, none, none, some _, none => some .dataV
  | none, none, none, none, some _ => some .sumV
  | _, _, _, _, _ => none

/-! ## Consumer pipeline theorems (claims C1, C2, C6, C7) -/

/-- C1: a batch containing at least one record with a forbidden
field-name separator or a reserved field name is rejected atomically:
`Consume` returns the invalid-key ValidationError and the sink observes
zero additional rows. -/
theorem consume_invalid_batch_rejected (sink : List JsonMessage)
    (batch : List JsonMessage)
    (h : ∃ m ∈ batch, validJsonMessage m = false) :
    consumeJson sink batch = (sink, some ConsumeError.invalidKey) := by
  have hall : batch.all validJsonMessage = false := by
    obtain ⟨m, hm, hv⟩ := h
    rw [← Bool.not_eq_true, List.all_eq_true]
    intro hforall
    rw [hforall m hm] at hv
    exact Bool.noConfusion hv
  simp [consumeJson, hall]

/-- A JSON message whose payload holds a key with the forbidden
separator '/', as in the writer test's `invalidKeySepMsg`. -/
def invalidSepMsg : JsonMessage :=
  { channel := "45", subtopic := "subtopic/format/json", publisher := "2580",
    protocol := "mqtt", created := 0,
    payload := [("field_1", .num 123),
                ("field_5", .obj [("field_2", .num 42)]),
                ("field_6/field_7", .str "value")] }

/-- A JSON message whose payload holds the reserved key "publisher", as
in the writer test's `invalidKeyNameMsg`. -/
def invalidNameMsg : JsonMessage :=
  { channel := "45", subtopic := "subtopic/format/json", publisher := "2580",
    protocol := "mqtt", created := 0,
    payload := [("field_1", .num 123),
                ("field_5", .obj [("field_2", .num 42)]),
                ("publisher", .str "value")] }

/-- A JSON message with only valid payload keys, as in the writer
test's `msg`. -/
def validJsonMsg : JsonMessage :=
  { channel := "45", subtopic := "subtopic/format/json", publisher := "2580",
    protocol := "mqtt", created := 0,
    payload := [("field_1", .num 123), ("field_2", .str "value"),
                ("field_3", .boolean false), ("value", .num (12344 / 1000)),
                ("field_5", .obj [("field_2", .num 42)])] }

/-- C1 witness: a separator key and a reserved-name key each reject
their batch with the invalid-key error, leaving the sink unchanged. -/
theorem consume_invalid_batch_rejected_witness :
    consumeJson [] [invalidSepMsg] = ([], some ConsumeError.invalidKey)
    ∧ consumeJson [validJsonMsg] [validJsonMsg, invalidNameMsg]
        = ([validJsonMsg], some ConsumeError.invalidKey) :=
  ⟨consume_invalid_batch_rejected [] [invalidSepMsg]
      ⟨invalidSepMsg, by simp, by decide⟩,
   consume_invalid_batch_rejected [validJsonMsg] [validJsonMsg, invalidNameMsg]
      ⟨invalidNameMsg, by simp, by decide⟩⟩

/-- C2: a non-empty batch of N valid records is consumed without error
and the sink gains exactly N rows, in batch order. -/
theorem consume_valid_batch (sink : List JsonMessage) (batch : List JsonMessage)
    (hne : batch ≠ [])
    (hv : ∀ m ∈ batch, validJsonMessage m = true) :
    consumeJson sink batch = (sink ++ batch, none)
    ∧ (sink ++ batch).length = sink.length + batch.length
    ∧ sink.length + 1 ≤ (sink ++ batch).length := by
  have hall : batch.all validJsonMessage = true := List.all_eq_true.mpr hv
  refine ⟨by simp [consumeJson, hall], by simp, ?_⟩
  have : batch.length ≠ 0 := fun h0 => hne (List.length_eq_zero.mp h0)
  simp only [List.length_append]
  omega

/-- C2 witness: a batch of two valid records yields exactly two stored
rows and no error. -/
theorem consume_valid_batch_witness :
    consumeJson [] [validJsonMsg, validJsonMsg]
      = ([validJsonMsg, validJsonMsg], none)
    ∧ ([] ++ [validJsonMsg, validJsonMsg] : List JsonMessage).length = 0 + 2 :=
  ⟨(consume_valid_batch [] [validJsonMsg, validJsonMsg] (by simp)
      (by decide)).1,
   ((consume_valid_batch [] [validJsonMsg, validJsonMsg] (by simp)
      (by decide)).2.1)⟩

/-- The mixed-payload batch of 5 records, carrying the variants value,
boolean, string, binary and sum in round-robin order, with the test's
payload values. -/
def mixedBatch : List SenmlMessage :=
  [{ channel := "45", subtopic := "topic", publisher := "2580", protocol := "http",
     name := "test name", unit := "km", time := 0, payload := .value 5 },
   { channel := "45", subtopic := "topic", publisher := "2580", protocol := "http",
     name := "test name", unit := "km", time := 1, payload := .boolV true },
   { channel := "45", subtopic := "topic", publisher := "2580", protocol := "http",
     name := "test name", unit := "km", time := 2, payload := .stringV "value" },
   { channel := "45", subtopic := "topic", publisher := "2580", protocol := "http",
     name := "test name", unit := "km", time := 3, payload := .dataV "base64" },
   { channel := "45", subtopic := "topic", publisher := "2580", protocol := "http",
     name := "test name", unit := "km", time := 4, payload := .sumV 42 }]

/-- C6: consuming the mixed-payload batch of 5 records stores exactly 5
rows; each row has exactly one payload-variant field populated, and it
is the variant of the corresponding record. -/
theorem consume_mixed_batch_variants :
    (consumeSenml [] mixedBatch).length = 5
    ∧ (consumeSenml [] mixedBatch).map populatedTag =
        [some VariantTag.value, some VariantTag.boolV, some VariantTag.stringV,
         some VariantTag.dataV, some VariantTag.sumV]
    ∧ ((consumeSenml [] mixedBatch).map populatedTag =
        mixedBatch.map (fun m => some m.payload.tag))
    ∧ ∀ r ∈ consumeSenml [] mixedBatch, populatedCount r = 1 := by
  refine ⟨rfl, rfl, rfl, ?_⟩
  decide

/-- C7: re-delivering a batch identical to one already written leaves
the logical content of the sink unchanged — exactly the same rows are
present — while the row count grows by exactly the duplicate batch's
size (the duplicate-tolerant overlap). -/
theorem consume_redelivery_duplicate_tolerant (sink : List SenmlRow)
    (batch : List SenmlMessage) :
    (∀ r, r ∈ consumeSenml (consumeSenml sink batch) batch
        ↔ r ∈ consumeSenml sink batch)
    ∧ (consumeSenml (consumeSenml sink batch) batch).length
        = (consumeSenml sink batch).length + batch.length := by
  constructor
  · intro r
    simp only [consumeSenml, List.mem_append]
    tauto
  · simp only [consumeSenml, List.length_append, List.length_map]

/-! ## cmd/smpp-notifier/main.go: defaults and environment keys -/

def defLogLevel : String := "error"
def defDBHost : String := "localhost"
def defDBPort : String := "5432"
def defDBUser : String := "mainflux"
def defDBPass : String := "mainflux"
def defDB : String := "subscriptions"
def defConfigPath : String := "/config.toml"
def defDBSSLMode : String := "disable"
def defDBSSLCert : String := ""
def defDBSSLKey : String := ""
def defDBSSLRootCert : String := ""
def defHTTPPort : String := "8907"
def defServerCert : String := ""
def defServerKey : String := ""
def defFrom : String := ""
def defJaegerURL : String := ""
def defNatsURL : String := "nats://localhost:4222"
def defSmppAddress : String := ""
def defSmppUsername : String := ""
def defSmppPassword : String := ""
def defSmppSystemType : String := ""
def defSmppSrcAddrTON : String := "0"
def defSmppDstAddrTON : String := "0"
def defSmppSrcAddrNPI : String := "0"
def defSmppDstAddrNPI : String := "0"
def defAuthTLS : String := "false"
def defAuthCACerts : String := ""
def defAuthURL : String := "localhost:8181"
def defAuthTimeout : String := "1s"

def envLogLevel : String := "MF_SMPP_NOTIFIER_LOG_LEVEL"
def envDBHost : String := "MF_SMPP_NOTIFIER_DB_HOST"
def envDBPort : String := "MF_SMPP_NOTIFIER_DB_PORT"
def envDBUser : String := "MF_SMPP_NOTIFIER_DB_USER"
def envDBPass : String := "MF_SMPP_NOTIFIER_DB_PASS"
def envDB : String := "MF_SMPP_NOTIFIER_DB"
def envConfigPath : String := "MF_SMPP_NOTIFIER_WRITER_CONFIG_PATH"
def envDBSSLMode : String := "MF_SMPP_NOTIFIER_DB_SSL_MODE"
def envDBSSLCert : String := "MF_SMPP_NOTIFIER_DB_SSL_CERT"
def envDBSSLKey : String := "MF_SMPP_NOTIFIER_DB_SSL_KEY"
def envDBSSLRootCert : String := "MF_SMPP_NOTIFIER_DB_SSL_ROOT_CERT"
def envHTTPPort : String := "MF_SMPP_NOTIFIER_HTTP_PORT"
def envServerCert : String := "MF_SMPP_NOTIFIER_SERVER_CERT"
def envServerKey : String := "MF_SMPP_NOTIFIER_SERVER_KEY"
def envFrom : String := "MF_SMPP_NOTIFIER_SOURCE_ADDR"
def envJaegerURL : String := "MF_JAEGER_URL"
def envNatsURL : String := "MF_NATS_URL"
def envSmppAddress : String := "MF_SMPP_ADDRESS"
def envSmppUsername : String := "MF_SMPP_USERNAME"
def envSmppPassword : String := "MF_SMPP_PASSWORD"
def envSmppSystemType : String := "MF_SMPP_SYSTEM_TYPE"
def envSmppSrcAddrTON : String := "MF_SMPP_SRC_ADDR_TON"
def envSmppDstAddrTON : String := "MF_SMPP_DST_ADDR_TON"
def envSmppSrcAddrNPI : String := "MF_SMPP_SRC_ADDR_NPI"
def envSmppDstAddrNPI : String := "MF_SMPP_DST_ADDR_NPI"
def envAuthTLS : String := "MF_AUTH_CLIENT_TLS"
def envAuthCACerts : String := "MF_AUTH_CA_CERTS"
def envAuthURL : String := "MF_AUTH_GRPC_URL"
def envAuthTimeout : String := "MF_AUTH_GRPC_TIMEOUT"

/-- Modelled from the spec: `mainflux.Env` (not among the sampled
sources) — look an environment variable up, falling back to the given
default when it is unset. -/
def env (lookup : String → Option String) (key fallback : String) : String :=
  (lookup key).getD fallback

/-! ## Models of the Go standard-library parsers used by loadConfig -/

/-- The largest signed 64-bit value, Go's duration overflow bound. -/
def maxInt64 : ℕ := 2 ^ 63 - 1

/-- The unit multipliers of Go `time.ParseDuration`, in nanoseconds. -/
def durationUnit : String → Option ℕ
  | "ns" => some 1
  | "us" => some 1000
  | "µs" => some 1000
  | "μs" => some 1000
  | "ms" => some 1000000
  | "s" => some 1000000000
  | "m" => some 60000000000
  | "h" => some 3600000000000
  | _ => none

/-- Go `time.leadingInt`: consume leading decimal digits into the
accumulator; fail on 64-bit overflow. -/
def leadingInt (x : ℕ) : List Char → Option (ℕ × List Char)
  | [] => some (x, [])
  | c :: rest =>
    if c.isDigit then
      let y := x * 10 + (c.toNat - '0'.toNat)
      if maxInt64 < y then none else leadingInt y rest
    else some (x, c :: rest)

/-- Go `time.leadingFraction`: consume fractional digits, tracking the
decimal scale; once the accumulator would overflow, further digits are
consumed but ignored. -/
def leadingFraction (f scale : ℕ) (overflow : Bool) :
    List Char → ℕ × ℕ × List Char
  | [] => (f, scale, [])
  | c :: rest =>
    if c.isDigit then
      if overflow then leadingFraction f scale overflow rest
      else
        let y := f * 10 + (c.toNat - '0'.toNat)
        if maxInt64 < y then leadingFraction f scale true rest
        else leadingFraction y (scale * 10) false rest
    else (f, scale, c :: rest)

/-- The leading unit token of a duration string: the characters up to
the next digit or '.'. -/
def spanUnit : List Char → List Char × List Char
  | [] => ([], [])
  | c :: rest =>
    if c = '.' ∨ c.isDigit then ([], c :: rest)
    else
      let (u, r) := spanUnit rest
      (c :: u, r)

/-- The main loop of Go `time.ParseDuration`: repeatedly parse a
decimal number with optional fraction followed by a unit, accumulating
nanoseconds, failing on malformed input, unknown units or 64-bit
overflow.  The fractional contribution is computed with exact integer
division in place of Go's float64 scaling; this does not change which
inputs are accepted except in overflow corner cases beyond 2^63 ns. -/
def parseDurationLoop : ℕ → ℕ → List Char → Option ℕ
  | 0, _, _ => none
  | fuel + 1, d, cs =>
    match cs with
    | [] => some d
    | c :: _ =>
      if ¬(c = '.' ∨ c.isDigit) then none
      else
        match leadingInt 0 cs with
        | none => none
        | some (v, s1) =>
          let pre := s1.length != cs.length
          let step2 :=
            match s1 with
            | '.' :: rest =>
              let fr := leadingFraction 0 1 false rest
              (fr.1, fr.2.1, fr.2.2, fr.2.2.length != rest.length)
            | other => ((0 : ℕ), (1 : ℕ), other, false)
          let f := step2.1
          let scale := step2.2.1
          let s2 := step2.2.2.1
          let post := step2.2.2.2
          if !pre && !post then none
          else
            let us := spanUnit s2
            if us.1.isEmpty then none
            else
              match durationUnit (String.mk us.1) with
              | none => none
              | some unit =>
                if maxInt64 / unit < v then none
                else
                  let v2 := v * unit + f * unit / scale
                  if maxInt64 < v2 then none
                  else if maxInt64 < d + v2 then none
                  else parseDurationLoop fuel (d + v2) us.2

/-- Go `time.ParseDuration`: optional sign, the special case "0", then
one or more number-unit segments; the result is in nanoseconds. -/
def goParseDuration (s : String) : Option ℤ :=
  let cs0 := s.toList
  let signed :=
    match cs0 with
    | '-' :: rest => (true, rest)
    | '+' :: rest => (false, rest)
    | rest => (false, rest)
  let neg := signed.1
  let cs := signed.2
  if cs = ['0'] then some 0
  else if cs = [] then none
  else
    match parseDurationLoop (cs.length + 1) 0 cs with
    | none => none
    | some d => some (if neg then -(d : ℤ) else (d : ℤ))

/-- Go `strconv.ParseBool`: the exact set of accepted literals. -/
def goParseBool : String → Option Bool
  | "1" => some true
  | "t" => some true
  | "T" => some true
  | "true" => some true
  | "TRUE" => some true
  | "True" => some true
  | "0" => some false
  | "f" => some false
  | "F" => some false
  | "false" => some false
  | "FALSE" => some false
  | "False" => some false
  | _ => none

/-- Go `strconv.ParseUint(s, 10, 8)`: a non-empty string of decimal
digits whose value fits in 8 bits; anything else (sign, other
characters, out-of-range value) is an error. -/
def goParseUint8 (s : String) : Option ℕ :=
  let cs := s.toList
  if cs.isEmpty then none
  else if cs.all Char.isDigit then
    let n := cs.foldl (fun a c => a * 10 + (c.toNat - '0'.toNat)) 0
    if n ≤ 255 then some n else none
  else none

/-! ## cmd/smpp-notifier/main.go: configuration loading -/

/-- `postgres.Config` as populated by loadConfig. -/
structure PostgresConfig where
  host : String
  port : String
  user : String
  pass : String
  name : String
  sslMode : String
  sslCert : String
  sslKey : String
  sslRootCert : String
deriving DecidableEq

/-- `mfsmpp.Config` as populated by loadConfig; the four TON/NPI fields
are Go `uint8` values, embedded as naturals below 256. -/
structure SmppConfig where
  address : String
  username : String
  password : String
  systemType : String
  sourceAddrTON : ℕ
  destAddrTON : ℕ
  sourceAddrNPI : ℕ
  destAddrNPI : ℕ
deriving DecidableEq

/-- The `config` struct of cmd/smpp-notifier/main.go.  Go's `from`
field is renamed `fromAddr` (`from` is reserved in Lean); `authTimeout`
is a Go `time.Duration`, i.e. signed nanoseconds. -/
structure config where
  natsURL : String
  configPath : String
  logLevel : String
  dbConfig : PostgresConfig
  smppConf : SmppConfig
  fromAddr : String
  httpPort : String
  serverCert : String
  serverKey : String
  jaegerURL : String
  authTLS : Bool
  authCACerts : String
  authURL : String
  authTimeout : ℤ
deriving DecidableEq

/-- `loadConfig` of cmd/smpp-notifier/main.go over an environment
`lookup`.  Each `log.Fatalf` is embedded as an error naming the
offending environment variable; the `uint8(...)` conversions are
embedded as `% 256`. -/
def loadConfig (lookup : String → Option String) : Except String config :=
  match goParseDuration (env lookup envAuthTimeout defAuthTimeout) with
  | none => .error envAuthTimeout
  | some authTimeout =>
    match goParseBool (env lookup envAuthTLS defAuthTLS) with
    | none => .error envAuthTLS
    | some tls =>
      let dbConfig : PostgresConfig :=
        { host := env lookup envDBHost defDBHost,
          port := env lookup envDBPort defDBPort,
          user := env lookup envDBUser defDBUser,
          pass := env lookup envDBPass defDBPass,
          name := env lookup envDB defDB,
          sslMode := env lookup envDBSSLMode defDBSSLMode,
          sslCert := env lookup envDBSSLCert defDBSSLCert,
          sslKey := env lookup envDBSSLKey defDBSSLKey,
          sslRootCert := env lookup envDBSSLRootCert defDBSSLRootCert }
      match goParseUint8 (env lookup envSmppSrcAddrTON defSmppSrcAddrTON) with
      | none => .error envSmppSrcAddrTON
      | some saton =>
        match goParseUint8 (env lookup envSmppDstAddrTON defSmppDstAddrTON) with
        | none => .error envSmppDstAddrTON
        | some daton =>
          match goParseUint8 (env lookup envSmppSrcAddrNPI defSmppSrcAddrNPI) with
          | none => .error envSmppSrcAddrNPI
          | some sanpi =>
            match goParseUint8 (env lookup envSmppDstAddrNPI defSmppDstAddrNPI) with
            | none => .error envSmppDstAddrNPI
            | some danpi =>
              let smppConf : SmppConfig :=
                { address := env lookup envSmppAddress defSmppAddress,
                  username := env lookup envSmppUsername defSmppUsername,
                  password := env lookup envSmppPassword defSmppPassword,
                  systemType := env lookup envSmppSystemType defSmppSystemType,
                  sourceAddrTON := saton % 256,
                  destAddrTON := daton % 256,
                  sourceAddrNPI := sanpi % 256,
                  destAddrNPI := danpi % 256 }
              .ok
                { logLevel := env lookup envLogLevel defLogLevel,
                  natsURL := env lookup envNatsURL defNatsURL,
                  configPath := env lookup envConfigPath defConfigPath,
                  dbConfig := dbConfig,
                  smppConf := smppConf,
                  fromAddr := env lookup envFrom defFrom,
                  httpPort := env lookup envHTTPPort defHTTPPort,
                  serverCert := env lookup envServerCert defServerCert,
                  serverKey := env lookup envServerKey defServerKey,
                  jaegerURL := env lookup envJaegerURL defJaegerURL,
                  authTLS := tls,
                  authCACerts := env lookup envAuthCACerts defAuthCACerts,
                  authURL := env lookup envAuthURL defAuthURL,
                  authTimeout := authTimeout }

/-! ## cmd/smpp-notifier/main.go: tracer init and startup sequence -/

/-- An opentracing tracer as produced by initJaeger: the no-op tracer
or a real Jaeger tracer for a service. -/
inductive Tracer where
  | noop
  | jaeger (svcName : String)
deriving DecidableEq

/-- The closer paired with a tracer: `ioutil.NopCloser(nil)` or the
Jaeger closer. -/
inductive Closer where
  | nop
  | jaeger (svcName : String)
deriving DecidableEq

/-- `initJaeger` of cmd/smpp-notifier/main.go: an empty URL yields the
no-op tracer and closer with no error; otherwise the Jaeger tracer is
built, and a construction failure (`tracerOk = false`) makes the
process exit — embedded as `none`. -/
def initJaeger (svcName url : String) (tracerOk : Bool) :
    Option (Tracer × Closer) :=
  if url = "" then some (.noop, .nop)
  else if tracerOk then some (.jaeger svcName, .jaeger svcName)
  else none

/-- The external world at boot: which collaborator operations succeed.
`consumerStartOk` is whether `consumers.Start` succeeds; per the source
its failure is only logged. -/
structure World where
  loggerOk : Bool
  dbOk : Bool
  natsOk : Bool
  tracerOk : Bool
  authCredsOk : Bool
  authDialOk : Bool
  consumerStartOk : Bool
deriving DecidableEq

/-- The step at which main exits during boot. -/
inductive BootStep where
  | loggerInit
  | storeConnect
  | busConnect
  | jaegerInit
  | authCreds
  | authDial
deriving DecidableEq

/-- The outcome of the boot sequence: the process exited at a step, or
the service reached its running state. -/
inductive BootResult where
  | exited (step : BootStep)
  | running
deriving DecidableEq

/-- The boot sequence of `main` in cmd/smpp-notifier/main.go, after
`loadConfig` returned `cfg`: logger creation (`log.Fatalf` on error),
`connectToDB` (`os.Exit(1)` when Postgres is unreachable),
`nats.NewPubSub` (`os.Exit(1)` when the bus is unreachable), the three
`initJaeger` calls (`os.Exit(1)` on tracer-construction failure),
`connectToAuth` (`os.Exit(1)` when TLS credentials cannot be loaded or
the gRPC dial fails), then `consumers.Start`, whose failure is only
logged, never fatal. -/
def mainBoot (cfg : config) (w : World) : BootResult :=
  if !w.loggerOk then .exited .loggerInit
  else if !w.dbOk then .exited .storeConnect
  else if !w.natsOk then .exited .busConnect
  else
    match initJaeger "auth" cfg.jaegerURL w.tracerOk with
    | none => .exited .jaegerInit
    | some _ =>
      if cfg.authTLS && cfg.authCACerts != "" && !w.authCredsOk then
        .exited .authCreds
      else if !w.authDialOk then .exited .authDial
      else
        match initJaeger "smpp-notifier" cfg.jaegerURL w.tracerOk,
              initJaeger "smpp-notifier_db" cfg.jaegerURL w.tracerOk with
        | none, _ => .exited .jaegerInit
        | _, none => .exited .jaegerInit
        | some _, some _ => .running

/-! ## Startup theorems (claims C8, C9) -/

/-- C9: whenever the Jaeger URL is empty — which is its documented
default — initJaeger returns the no-op tracer and the no-op closer,
with no error and no process exit, for every service name and every
tracer-construction outcome. -/
theorem initJaeger_noop_on_empty_url (svcName url : String) (tracerOk : Bool)
    (h : url = "") :
    initJaeger svcName url tracerOk = some (Tracer.noop, Closer.nop)
    ∧ defJaegerURL = "" := by
  subst h
  exact ⟨rfl, rfl⟩

/-- C9 witness: the auth tracer with an empty Jaeger URL is the no-op
tracer even when tracer construction would fail. -/
theorem initJaeger_noop_on_empty_url_witness :
    initJaeger "auth" "" false = some (Tracer.noop, Closer.nop)
    ∧ defJaegerURL = "" :=
  initJaeger_noop_on_empty_url "auth" "" false rfl

/-- A well-formed config whose Jaeger URL is set, used to exhibit a
boot-time exit that is neither the store nor the bus. -/
def cfgJaeger : config :=
  { natsURL := defNatsURL, configPath := defConfigPath, logLevel := defLogLevel,
    dbConfig := { host := defDBHost, port := defDBPort, user := defDBUser,
                  pass := defDBPass, name := defDB, sslMode := defDBSSLMode,
                  sslCert := defDBSSLCert, sslKey := defDBSSLKey,
                  sslRootCert := defDBSSLRootCert },
    smppConf := { address := "", username := "", password := "", systemType := "",
                  sourceAddrTON := 0, destAddrTON := 0, sourceAddrNPI := 0,
                  destAddrNPI := 0 },
    fromAddr := "", httpPort := defHTTPPort, serverCert := "", serverKey := "",
    jaegerURL := "jaeger:6831", authTLS := false, authCACerts := "",
    authURL := defAuthURL, authTimeout := 1000000000 }

/-- A boot world where the store and the bus are both reachable but
Jaeger tracer construction fails. -/
def worldJaegerFail : World :=
  { loggerOk := true, dbOk := true, natsOk := true, tracerOk := false,
    authCredsOk := true, authDialOk := true, consumerStartOk := true }

/-- C8 counterexample: it is not the case that the process exits at
boot only when the store or the bus is unreachable — with both
reachable but Jaeger misconfigured (URL set, tracer construction
failing), main still exits. -/
theorem main_fatal_not_only_store_bus :
    ¬ (∀ (cfg : config) (w : World),
        (∃ st, mainBoot cfg w = BootResult.exited st) ↔
          (w.dbOk = false ∨ w.natsOk = false)) := by
  intro hclaim
  have h := (hclaim cfgJaeger worldJaegerFail).mp ⟨.jaegerInit, by decide⟩
  rcases h with h | h <;> exact absurd h (by decide)

/-- C8 amended: no failure of `consumers.Start` (the message-processing
wiring) exits the process, and the process exits at boot exactly when
one of the unrecoverable startup conditions holds: logger creation
fails, the subscription store (Postgres) is unreachable, the message
bus (NATS) is unreachable, a Jaeger URL is configured but tracer
construction fails, auth TLS is enabled with CA certs whose credentials
cannot be loaded, or the auth gRPC dial fails.  In particular every
boot-time failure to reach the store or the bus exits the process. -/
theorem mainBoot_exit_iff (cfg : config) (w : World) :
    ((∃ st, mainBoot cfg w = BootResult.exited st) ↔
      (w.loggerOk = false ∨ w.dbOk = false ∨ w.natsOk = false
       ∨ (cfg.jaegerURL ≠ "" ∧ w.tracerOk = false)
       ∨ (cfg.authTLS = true ∧ cfg.authCACerts ≠ "" ∧ w.authCredsOk = false)
       ∨ w.authDialOk = false))
    ∧ (∀ b, mainBoot cfg { w with consumerStartOk := b } = mainBoot cfg w) := by
  constructor
  · obtain ⟨lo, db, na, tr, ac, ad, cs⟩ := w
    by_cases hj : cfg.jaegerURL = "" <;>
      by_cases hca : cfg.authCACerts = "" <;>
        rcases htls : cfg.authTLS <;>
          cases lo <;> cases db <;> cases na <;> cases tr <;> cases ac <;>
            cases ad <;> simp_all [mainBoot, initJaeger]
  · intro b
    rfl

/-! ## loadConfig theorem (claim C10) -/

lemma goParseUint8_le_255 (s : String) (n : ℕ) (h : goParseUint8 s = some n) :
    n ≤ 255 := by
  unfold goParseUint8 at h
  dsimp only [] at h
  split at h
  · simp at h
  · split at h
    · split at h
      · simp_all
      · simp at h
    · simp at h

lemma goParseDuration_default : goParseDuration defAuthTimeout = some 1000000000 := by
  decide

lemma goParseBool_default : goParseBool defAuthTLS = some false := rfl

lemma goParseUint8_default_TON : goParseUint8 "0" = some 0 := rfl

/-- C10: loadConfig is fatal — the process terminates — if and only if
at least one of the six parsed environment values is unparsable: the
auth timeout as a Go duration, the auth TLS flag as a Go boolean, or
one of the four SMPP TON/NPI values as a base-10 unsigned integer
fitting in 8 bits.  Otherwise it returns a config in which every unset
environment variable is replaced by its documented default and the four
TON/NPI values are stored exactly as parsed — the `uint8` conversion
truncates nothing. -/
theorem loadConfig_fatal_iff_defaults (lookup : String → Option String) :
    ((∃ e, loadConfig lookup = .error e) ↔
      (goParseDuration (env lookup envAuthTimeout defAuthTimeout) = none
       ∨ goParseBool (env lookup envAuthTLS defAuthTLS) = none
       ∨ goParseUint8 (env lookup envSmppSrcAddrTON defSmppSrcAddrTON) = none
       ∨ goParseUint8 (env lookup envSmppDstAddrTON defSmppDstAddrTON) = none
       ∨ goParseUint8 (env lookup envSmppSrcAddrNPI defSmppSrcAddrNPI) = none
       ∨ goParseUint8 (env lookup envSmppDstAddrNPI defSmppDstAddrNPI) = none))
    ∧ (∀ cfg, loadConfig lookup = Except.ok cfg →
        ((lookup envLogLevel = none → cfg.logLevel = defLogLevel)
         ∧ (lookup envNatsURL = none → cfg.natsURL = defNatsURL)
         ∧ (lookup envConfigPath = none → cfg.configPath = defConfigPath)
         ∧ (lookup envDBHost = none → cfg.dbConfig.host = defDBHost)
         ∧ (lookup envDBPort = none → cfg.dbConfig.port = defDBPort)
         ∧ (lookup envDBUser = none → cfg.dbConfig.user = defDBUser)
         ∧ (lookup envDBPass = none → cfg.dbConfig.pass = defDBPass)
         ∧ (lookup envDB = none → cfg.dbConfig.name = defDB)
         ∧ (lookup envDBSSLMode = none → cfg.dbConfig.sslMode = defDBSSLMode)
         ∧ (lookup envDBSSLCert = none → cfg.dbConfig.sslCert = defDBSSLCert)
         ∧ (lookup envDBSSLKey = none → cfg.dbConfig.sslKey = defDBSSLKey)
         ∧ (lookup envDBSSLRootCert = none →
              cfg.dbConfig.sslRootCert = defDBSSLRootCert)
         ∧ (lookup envFrom = none → cfg.fromAddr = defFrom)
         ∧ (lookup envHTTPPort = none → cfg.httpPort = defHTTPPort)
         ∧ (lookup envServerCert = none → cfg.serverCert = defServerCert)
         ∧ (lookup envServerKey = none → cfg.serverKey = defServerKey)
         ∧ (lookup envJaegerURL = none → cfg.jaegerURL = defJaegerURL)
         ∧ (lookup envSmppAddress = none → cfg.smppConf.address = defSmppAddress)
         ∧ (lookup envSmppUsername = none →
              cfg.smppConf.username = defSmppUsername)
         ∧ (lookup envSmppPassword = none →
              cfg.smppConf.password = defSmppPassword)
         ∧ (lookup envSmppSystemType = none →
              cfg.smppConf.systemType = defSmppSystemType)
         ∧ (lookup envAuthCACerts = none → cfg.authCACerts = defAuthCACerts)
         ∧ (lookup envAuthURL = none → cfg.authURL = defAuthURL)
         ∧ (lookup envAuthTimeout = none → cfg.authTimeout = 1000000000)
         ∧ (lookup envAuthTLS = none → cfg.authTLS = false)
         ∧ (lookup envSmppSrcAddrTON = none → cfg.smppConf.sourceAddrTON = 0)
         ∧ (lookup envSmppDstAddrTON = none → cfg.smppConf.destAddrTON = 0)
         ∧ (lookup envSmppSrcAddrNPI = none → cfg.smppConf.sourceAddrNPI = 0)
         ∧ (lookup envSmppDstAddrNPI = none → cfg.smppConf.destAddrNPI = 0)
         ∧ (goParseUint8 (env lookup envSmppSrcAddrTON defSmppSrcAddrTON)
              = some cfg.smppConf.sourceAddrTON ∧ cfg.smppConf.sourceAddrTON ≤ 255)
         ∧ (goParseUint8 (env lookup envSmppDstAddrTON defSmppDstAddrTON)
              = some cfg.smppConf.destAddrTON ∧ cfg.smppConf.destAddrTON ≤ 255)
         ∧ (goParseUint8 (env lookup envSmppSrcAddrNPI defSmppSrcAddrNPI)
              = some cfg.smppConf.sourceAddrNPI ∧ cfg.smppConf.sourceAddrNPI ≤ 255)
         ∧ (goParseUint8 (env lookup envSmppDstAddrNPI defSmppDstAddrNPI)
              = some cfg.smppConf.destAddrNPI ∧ cfg.smppConf.destAddrNPI ≤ 255))) := by
  constructor
  · rcases h1 : goParseDuration (env lookup envAuthTimeout defAuthTimeout) with _ | td
    · simp [loadConfig, h1]
    rcases h2 : goParseBool (env lookup envAuthTLS defAuthTLS) with _ | tls
    · simp [loadConfig, h1, h2]
    rcases h3 : goParseUint8 (env lookup envSmppSrcAddrTON defSmppSrcAddrTON)
      with _ | saton
    · simp [loadConfig, h1, h2, h3]
    rcases h4 : goParseUint8 (env lookup envSmppDstAddrTON defSmppDstAddrTON)
      with _ | daton
    · simp [loadConfig, h1, h2, h3, h4]
    rcases h5 : goParseUint8 (env lookup envSmppSrcAddrNPI defSmppSrcAddrNPI)
      with _ | sanpi
    · simp [loadConfig, h1, h2, h3, h4, h5]
    rcases h6 : goParseUint8 (env lookup envSmppDstAddrNPI defSmppDstAddrNPI)
      with _ | danpi
    · simp [loadConfig, h1, h2, h3, h4, h5, h6]
    · simp [loadConfig, h1, h2, h3, h4, h5, h6]
  · intro cfg hok
    rcases h1 : goParseDuration (env lookup envAuthTimeout defAuthTimeout) with _ | td
    · simp [loadConfig, h1] at hok
    rcases h2 : goParseBool (env lookup envAuthTLS defAuthTLS) with _ | tls
    · simp [loadConfig, h1, h2] at hok
    rcases h3 : goParseUint8 (env lookup envSmppSrcAddrTON defSmppSrcAddrTON)
      with _ | saton
    · simp [loadConfig, h1, h2, h3] at hok
    rcases h4 : goParseUint8 (env lookup envSmppDstAddrTON defSmppDstAddrTON)
      with _ | daton
    · simp [loadConfig, h1, h2, h3, h4] at hok
    rcases h5 : goParseUint8 (env lookup envSmppSrcAddrNPI defSmppSrcAddrNPI)
      with _ | sanpi
    · simp [loadConfig, h1, h2, h3, h4, h5] at hok
    rcases h6 : goParseUint8 (env lookup envSmppDstAddrNPI defSmppDstAddrNPI)
      with _ | danpi
    · simp [loadConfig, h1, h2, h3, h4, h5, h6] at hok
    simp only [loadConfig, h1, h2, h3, h4, h5, h6] at hok
    have hsa := goParseUint8_le_255 _ _ h3
    have hda := goParseUint8_le_255 _ _ h4
    have hsn := goParseUint8_le_255 _ _ h5
    have hdn := goParseUint8_le_255 _ _ h6
    obtain rfl := (Except.ok.injEq _ _).mp hok
    refine ⟨fun h => by simp [env, h], fun h => by simp [env, h],
      fun h => by simp [env, h], fun h => by simp [env, h],
      fun h => by simp [env, h], fun h => by simp [env, h],
      fun h => by simp [env, h], fun h => by simp [env, h],
      fun h => by simp [env, h], fun h => by simp [env, h],
      fun h => by simp [env, h], fun h => by simp [env, h],
      fun h => by simp [env, h], fun h => by simp [env, h],
      fun h => by simp [env, h], fun h => by simp [env, h],
      fun h => by simp [env, h], fun h => by simp [env, h],
      fun h => by simp [env, h], fun h => by simp [env, h],
      fun h => by simp [env, h], fun h => by simp [env, h],
      fun h => by simp [env, h], ?_, ?_, ?_, ?_, ?_, ?_, ?_, ?_, ?_, ?_⟩
    · intro h
      rw [env, h, Option.getD_none] at h1
      rw [goParseDuration_default] at h1
      simp_all
    · intro h
      rw [env, h, Option.getD_none] at h2
      rw [goParseBool_default] at h2
      simp_all
    · intro h
      rw [env, h, Option.getD_none] at h3
      rw [show defSmppSrcAddrTON = "0" from rfl, goParseUint8_default_TON] at h3
      have hs0 : saton = 0 := (Option.some.inj h3).symm
      show saton % 256 = 0
      omega
    · intro h
      rw [env, h, Option.getD_none] at h4
      rw [show defSmppDstAddrTON = "0" from rfl, goParseUint8_default_TON] at h4
      have hd0 : daton = 0 := (Option.some.inj h4).symm
      show daton % 256 = 0
      omega
    · intro h
      rw [env, h, Option.getD_none] at h5
      rw [show defSmppSrcAddrNPI = "0" from rfl, goParseUint8_default_TON] at h5
      have hs0 : sanpi = 0 := (Option.some.inj h5).symm
      show sanpi % 256 = 0
      omega
    · intro h
      rw [env, h, Option.getD_none] at h6
      rw [show defSmppDstAddrNPI = "0" from rfl, goParseUint8_default_TON] at h6
      have hd0 : danpi = 0 := (Option.some.inj h6).symm
      show danpi % 256 = 0
      omega
    · exact ⟨show some saton = some (saton % 256) from
          congrArg some (Nat.mod_eq_of_lt (by omega)).symm,
        show saton % 256 ≤ 255 by omega⟩
    · exact ⟨show some daton = some (daton % 256) from
          congrArg some (Nat.mod_eq_of_lt (by omega)).symm,
        show daton % 256 ≤ 255 by omega⟩
    · exact ⟨show some sanpi = some (sanpi % 256) from
          congrArg some (Nat.mod_eq_of_lt (by omega)).symm,
        show sanpi % 256 ≤ 255 by omega⟩
    · exact ⟨show some danpi = some (danpi % 256) from
          congrArg some (Nat.mod_eq_of_lt (by omega)).symm,
        show danpi % 256 ≤ 255 by omega⟩

/-- The config produced when no environment variable is set: every
field holds its documented default. -/
def defaultConfig : config :=
  { natsURL := defNatsURL, configPath := defConfigPath, logLevel := defLogLevel,
    dbConfig := { host := defDBHost, port := defDBPort, user := defDBUser,
                  pass := defDBPass, name := defDB, sslMode := defDBSSLMode,
                  sslCert := defDBSSLCert, sslKey := defDBSSLKey,
                  sslRootCert := defDBSSLRootCert },
    smppConf := { address := defSmppAddress, username := defSmppUsername,
                  password := defSmppPassword, systemType := defSmppSystemType,
                  sourceAddrTON := 0, destAddrTON := 0, sourceAddrNPI := 0,
                  destAddrNPI := 0 },
    fromAddr := defFrom, httpPort := defHTTPPort, serverCert := defServerCert,
    serverKey := defServerKey, jaegerURL := defJaegerURL, authTLS := false,
    authCACerts := defAuthCACerts, authURL := defAuthURL,
    authTimeout := 1000000000 }

/-- C10 witness: with every environment variable unset, loadConfig does
not terminate the process and yields the all-defaults config — in
particular the default log level, the one-second auth timeout, TLS off
and TON zero. -/
theorem loadConfig_fatal_iff_defaults_witness :
    loadConfig (fun _ => none) = Except.ok defaultConfig
    ∧ defaultConfig.logLevel = defLogLevel
    ∧ defaultConfig.authTimeout = 1000000000
    ∧ defaultConfig.authTLS = false
    ∧ defaultConfig.smppConf.sourceAddrTON = 0 := by
  have h := (loadConfig_fatal_iff_defaults (fun _ => none)).2 defaultConfig
    rfl
  obtain ⟨c1, c2, c3, c4, c5, c6, c7, c8, c9, c10, c11, c12, c13, c14, c15,
    c16, c17, c18, c19, c20, c21, c22, c23, c24, c25, c26, c27, c28, c29,
    c30, c31, c32, c33⟩ := h
  exact ⟨rfl, c1 rfl, c24 rfl, c25 rfl, c26 rfl⟩

end Mainflux
